import Mathlib

/-!
# Verification of update53 (dynamic-DNS updater)

Shallow embedding of the update decision and execution pipeline of the
`update53` repository: address resolution (`GetPublicIP`), hosted-zone
resolution (`getHostedZoneID`) and the orchestration cycle
(`updatehostname`).  External collaborators (HTTP fetch, EC2 metadata,
Route53 listing and mutation) are modelled as an oracle environment
`NetEnv` whose fields hold the answers those calls would return; the
embedding additionally records which collaborators each run consulted.
-/

namespace Update53

/-! ## Model of Go `net.ParseIP`

`net.ParseIP` scans for the first `.` or `:` and dispatches to the IPv4
or IPv6 parser.  `dtoi`/`xtoi` read a decimal/hex prefix bounded by
`big = 0xFFFFFF`.  We model the parsers as Boolean validity checks on
the character list of the string (the parsed bytes themselves are never
used by update53, only nil-ness of the result). -/

def big : Nat := 0xFFFFFF

/-- Go `dtoi`: parse a decimal prefix; `none` when there is no digit or
the running value reaches `big`.  Returns the value and the rest. -/
def dtoiGo : List Char → Nat → Option (Nat × List Char)
  | [], n => some (n, [])
  | c :: rest, n =>
    if c.isDigit then
      let n' := n * 10 + (c.toNat - 48)
      if n' ≥ big then none else dtoiGo rest n'
    else some (n, c :: rest)

/-- Entry point of `dtoi`: fails when the first character is not a digit. -/
def dtoi (s : List Char) : Option (Nat × List Char) :=
  match s with
  | [] => none
  | c :: _ => if c.isDigit then dtoiGo s 0 else none

/-- Go `xtoi`: parse a hexadecimal prefix, same `big` bound. -/
def xtoiGo : List Char → Nat → Option (Nat × List Char)
  | [], n => some (n, [])
  | c :: rest, n =>
    if c.isDigit then
      let n' := n * 16 + (c.toNat - 48)
      if n' ≥ big then none else xtoiGo rest n'
    else if 'a' ≤ c ∧ c ≤ 'f' then
      let n' := n * 16 + (c.toNat - 'a'.toNat) + 10
      if n' ≥ big then none else xtoiGo rest n'
    else if 'A' ≤ c ∧ c ≤ 'F' then
      let n' := n * 16 + (c.toNat - 'A'.toNat) + 10
      if n' ≥ big then none else xtoiGo rest n'
    else some (n, c :: rest)

def isHexDigit (c : Char) : Bool :=
  c.isDigit || ('a' ≤ c && c ≤ 'f') || ('A' ≤ c && c ≤ 'F')

def xtoi (s : List Char) : Option (Nat × List Char) :=
  match s with
  | [] => none
  | c :: _ => if isHexDigit c then xtoiGo s 0 else none

/-- Fields 2..4 of Go `parseIPv4`: each preceded by a `.`, each a decimal
number at most `0xFF`; after the last field the string must be empty. -/
def parseV4After : Nat → List Char → Bool
  | 0, s => s.isEmpty
  | r + 1, s =>
    match s with
    | '.' :: rest =>
      match dtoi rest with
      | some (n, rest2) => n ≤ 0xFF && parseV4After r rest2
      | none => false
    | _ => false

/-- Go `parseIPv4`: four dot-separated decimal fields, each ≤ 255. -/
def parseIPv4 (s : List Char) : Bool :=
  match dtoi s with
  | some (n, rest) => n ≤ 0xFF && parseV4After 3 rest
  | none => false

/-- One pass of the Go `parseIPv6` loop.  `i` is the number of address
bytes already filled (0..16), `ell` whether a `::` ellipsis was seen.
The first argument is fuel bounding recursion (each pass consumes at
least one character of the input). -/
def parseV6Loop : Nat → List Char → Nat → Bool → Bool
  | 0, _, _, _ => false
  | f + 1, s, i, ell =>
    if i ≥ 16 then s.isEmpty && decide (i = 16) && !ell
    else
      match xtoi s with
      | none => false
      | some (n, rest) =>
        if n > 0xFFFF then false
        else
          match rest with
          | '.' :: _ =>
            -- trailing IPv4 chunk: the hex field is followed by a '.'
            if (!ell && decide (i ≠ 12)) || decide (i + 4 > 16) then false
            else parseIPv4 s && (!ell || decide (i + 4 < 16))
          | [] => decide (i + 2 = 16) && !ell || decide (i + 2 < 16) && ell
          | [':'] => false
          | ':' :: ':' :: rest2 =>
            if ell then false
            else
              match rest2 with
              | [] => decide (i + 2 < 16)
              | _ => parseV6Loop f rest2 (i + 2) true
          | ':' :: rest2 => parseV6Loop f rest2 (i + 2) ell
          | _ => false

/-- Go `parseIPv6` (zone identifiers `%zone` are not modelled: update53
never passes addresses containing them to `ParseIP` sources it trusts,
and validity of such strings is irrelevant to the claims). -/
def parseIPv6 (s : List Char) : Bool :=
  match s with
  | ':' :: ':' :: rest =>
    match rest with
    | [] => true
    | _ => parseV6Loop (rest.length + 1) rest 0 true
  | _ => parseV6Loop (s.length + 1) s 0 false

/-- Whether `s` contains a character, searching left to right, and which
of `.`/`:` comes first: Go `ParseIP` dispatches on the first of the two. -/
def firstSep : List Char → Option Char
  | [] => none
  | c :: rest => if c == '.' || c == ':' then some c else firstSep rest

/-- Model of Go `net.ParseIP` as a validity predicate: `true` iff
`net.ParseIP` returns a non-nil `IP`. -/
def parseIP (s : String) : Bool :=
  match firstSep s.data with
  | some '.' => parseIPv4 s.data
  | some _ => parseIPv6 s.data
  | none => false

/-- Model of Go `strings.HasSuffix s suffix`: for valid UTF-8, byte-level
suffix testing coincides with character-level suffix testing. -/
def hasSuffix (s suffix : String) : Bool :=
  suffix.data.isSuffixOf s.data

/-- Go `unicode.IsSpace` on the Latin-1 range ('\t', '\n', vertical tab,
form feed, '\r', ' ', NEL, NBSP); the exotic Unicode space classes are
never produced by the address sources modelled here. -/
def isSpaceGo (c : Char) : Bool :=
  c = ' ' || c = '\t' || c = '\n' || c = '\x0b' || c = '\x0c' || c = '\r' ||
  c = '\x85' || c = '\xa0'

/-- Model of Go `strings.TrimSpace`: drop leading and trailing white
space. -/
def trimSpace (s : String) : String :=
  ⟨((s.data.dropWhile isSpaceGo).reverse.dropWhile isSpaceGo).reverse⟩

/-! ## Oracle environment for the external collaborators

One orchestration cycle makes at most one address-source call (URL or
metadata), at most one zone-listing call and at most one DNS-mutation
call.  `NetEnv` fixes the answer each collaborator would give; the
embedding records which of them a run actually consulted. -/

/-- A hosted zone as returned by the provider listing: a fully-qualified
name (trailing-dot form) and an opaque id. -/
structure Zone where
  name : String
  id : String
deriving Repr, DecidableEq

/-- Answers of the external collaborators.  `Except.error` carries the
error message the call would fail with; `changeErr = none` means the
DNS mutation succeeds. -/
structure NetEnv where
  urlBody : Except String String
  metadata : Except String String
  listZones : Except String (List Zone)
  changeErr : Option String
deriving Repr

/-! ## AddressResolver: `GetPublicIP` (publicip.go) -/

/-- `PublicIP` wraps data on a public ip address (publicip.go). -/
structure PublicIP where
  ip : String
  e : Option String
deriving Repr, DecidableEq

/-- `getFromURL`: HTTP GET of the url, body trimmed of surrounding
whitespace; network errors are wrapped naming the url. -/
def getFromURL (env : NetEnv) (url : String) : Except String String :=
  match env.urlBody with
  | .error e =>
    .error ("unable to get public ip details from: " ++ url ++ " error: " ++ e)
  | .ok body => .ok (trimSpace body)

/-- `getFromMetadata`: the EC2 metadata `public-ipv4` attribute. -/
def getFromMetadata (env : NetEnv) : Except String String :=
  env.metadata

/-- Result of one `GetPublicIP` run together with which address sources
it consulted. -/
structure AddrRun where
  res : PublicIP
  urlCalled : Bool
  mdCalled : Bool
deriving Repr, DecidableEq

/-- `GetPublicIP` (publicip.go): use the supplied `ip` verbatim when
non-empty, else fetch from `geturl` when non-empty, else from metadata;
then validate the candidate with `net.ParseIP`. -/
def GetPublicIP (env : NetEnv) (ip geturl : String) : AddrRun :=
  let (fetched, urlCalled, mdCalled) :=
    if ip = "" then
      if geturl ≠ "" then (getFromURL env geturl, true, false)
      else (getFromMetadata env, false, true)
    else (.ok ip, false, false)
  match fetched with
  | .error e =>
    { res := { ip := "", e := some ("error getting public ip: " ++ e) },
      urlCalled := urlCalled, mdCalled := mdCalled }
  | .ok cand =>
    if parseIP cand then
      { res := { ip := cand, e := none }, urlCalled := urlCalled, mdCalled := mdCalled }
    else
      { res := { ip := "", e := some ("unable to parse public ip from: " ++ cand) },
        urlCalled := urlCalled, mdCalled := mdCalled }

/-! ## ZoneResolver: `getHostedZoneID` -/

/-- `futureAns`: any error encountered while producing the data, and the
data to be returned. -/
structure futureAns where
  e : Option String
  s : String
deriving Repr, DecidableEq

/-- Result of one `getHostedZoneID` run together with whether the zone
listing collaborator was called. -/
structure ZoneRun where
  res : futureAns
  listCalled : Bool
deriving Repr, DecidableEq

/-- `getHostedZoneID`: return the supplied hosted-zone id verbatim when
non-empty; otherwise list all hosted zones and take the first (in
provider order) whose name is a suffix of the hostname. -/
def getHostedZoneID (env : NetEnv) (hostname hz : String) : ZoneRun :=
  if hz ≠ "" then
    { res := { e := none, s := hz }, listCalled := false }
  else
    match env.listZones with
    | .error e => { res := { e := some e, s := "" }, listCalled := true }
    | .ok zones =>
      match zones.find? (fun z => hasSuffix hostname z.name) with
      | some z => { res := { e := none, s := z.id }, listCalled := true }
      | none =>
        { res := { e := some "unable to find hosted domain details", s := "" },
          listCalled := true }

/-! ## UpdateOrchestrator: `updatehostname` -/

/-- Application state (`update53` struct): the configuration plus the
single cached field `previousip`. -/
structure update53 where
  previousip : String
  forceip : String
  getip : String
  hostname : String
  hostedzone : String
  daemon : Bool
  verbose : Bool
  debug : Bool
deriving Repr, DecidableEq

/-- The DNS change request built by `updatehostname`
(`route53.ChangeResourceRecordSetsInput` with its single UPSERT change). -/
structure ChangeRq where
  action : String
  name : String
  rtype : String
  value : String
  ttl : Int
  comment : String
  hostedZoneId : String
deriving Repr, DecidableEq

/-- Everything one `updatehostname` invocation did: the state it leaves
behind, the value sent on `errChan` (`none` when the invocation returned
without sending anything; `some none` is a nil error, i.e. success), and
which collaborators were consulted. -/
structure CycleRun where
  state : update53
  sent : Option (Option String)
  urlCalled : Bool
  mdCalled : Bool
  zoneInvoked : Bool
  listCalled : Bool
  mutation : Option ChangeRq
deriving Repr, DecidableEq

/-- Lines 108-110 of `updatehostname`: normalize the hostname to
trailing-dot form (in place, as the Go code mutates the struct field). -/
def normalizeHost (u53 : update53) : update53 :=
  if ¬ hasSuffix u53.hostname "." then
    { u53 with hostname := u53.hostname ++ "." }
  else u53

/-- The remainder of `updatehostname` after the empty-hostname check and
hostname normalization (lines 112-181): validate the force ip, resolve
the public address, apply the change-detection gate, resolve the zone
and submit the mutation. -/
def updatehostnameBody (env : NetEnv) (u53 : update53) : CycleRun :=
  if u53.forceip ≠ "" ∧ parseIP u53.forceip = false then
    { state := u53, sent := some (some ("invalid force ip supplied: " ++ u53.forceip)),
      urlCalled := false, mdCalled := false,
      zoneInvoked := false, listCalled := false, mutation := none }
  else
    match (GetPublicIP env u53.forceip u53.getip).res.e with
    | some e =>
      { state := u53, sent := some (some e),
        urlCalled := (GetPublicIP env u53.forceip u53.getip).urlCalled,
        mdCalled := (GetPublicIP env u53.forceip u53.getip).mdCalled,
        zoneInvoked := false, listCalled := false, mutation := none }
    | none =>
      if u53.previousip = (GetPublicIP env u53.forceip u53.getip).res.ip then
        { state := u53, sent := none,
          urlCalled := (GetPublicIP env u53.forceip u53.getip).urlCalled,
          mdCalled := (GetPublicIP env u53.forceip u53.getip).mdCalled,
          zoneInvoked := false, listCalled := false, mutation := none }
      else
        match (getHostedZoneID env u53.hostname u53.hostedzone).res.e with
        | some e =>
          { state := u53, sent := some (some e),
            urlCalled := (GetPublicIP env u53.forceip u53.getip).urlCalled,
            mdCalled := (GetPublicIP env u53.forceip u53.getip).mdCalled,
            zoneInvoked := true,
            listCalled := (getHostedZoneID env u53.hostname u53.hostedzone).listCalled,
            mutation := none }
        | none =>
          { state := { u53 with previousip := (GetPublicIP env u53.forceip u53.getip).res.ip },
            sent := some env.changeErr,
            urlCalled := (GetPublicIP env u53.forceip u53.getip).urlCalled,
            mdCalled := (GetPublicIP env u53.forceip u53.getip).mdCalled,
            zoneInvoked := true,
            listCalled := (getHostedZoneID env u53.hostname u53.hostedzone).listCalled,
            mutation := some
              { action := "UPSERT", name := u53.hostname, rtype := "A",
                value := (GetPublicIP env u53.forceip u53.getip).res.ip,
                ttl := 300, comment := "Update53",
                hostedZoneId := (getHostedZoneID env u53.hostname u53.hostedzone).res.s } }

/-- `updatehostname`: one orchestration cycle over the oracle `env`. -/
def updatehostname (env : NetEnv) (u53 : update53) : CycleRun :=
  if u53.hostname = "" then
    { state := u53, sent := some (some "invalid hostname supplied"),
      urlCalled := false, mdCalled := false,
      zoneInvoked := false, listCalled := false, mutation := none }
  else
    updatehostnameBody env (normalizeHost u53)

/-! ## Basic facts about the embedding -/

theorem parseIP_empty : parseIP "" = false := rfl

theorem hasSuffix_append_dot (s : String) : hasSuffix (s ++ ".") "." = true := by
  simp [hasSuffix, String.data_append, List.isSuffixOf_iff_suffix]

theorem append_dot_ne_empty (s : String) : s ++ "." ≠ "" := by
  intro h
  have hd : (s ++ ".").data = ("" : String).data := by rw [h]
  simp [String.data_append] at hd

/-- The address resolver's result invariant: a success carries a string
accepted by `parseIP`, a failure carries the empty string. -/
theorem GetPublicIP_inv (env : NetEnv) (ip geturl : String) :
    ((GetPublicIP env ip geturl).res.e = none ∧
      parseIP (GetPublicIP env ip geturl).res.ip = true) ∨
    ((GetPublicIP env ip geturl).res.e ≠ none ∧ (GetPublicIP env ip geturl).res.ip = "") := by
  unfold GetPublicIP
  split
  split
  · simp
  · split <;> simp_all

theorem GetPublicIP_ok_ip_ne_empty (env : NetEnv) (ip geturl : String)
    (h : (GetPublicIP env ip geturl).res.e = none) :
    (GetPublicIP env ip geturl).res.ip ≠ "" := by
  rcases GetPublicIP_inv env ip geturl with ⟨_, hp⟩ | ⟨hne, _⟩
  · intro hcontra
    rw [hcontra] at hp
    exact absurd hp (by simp [parseIP_empty])
  · exact absurd h hne

/-! ### `normalizeHost` facts -/

theorem normalizeHost_previousip (u : update53) :
    (normalizeHost u).previousip = u.previousip := by
  unfold normalizeHost; split <;> rfl

theorem normalizeHost_forceip (u : update53) :
    (normalizeHost u).forceip = u.forceip := by
  unfold normalizeHost; split <;> rfl

theorem normalizeHost_getip (u : update53) :
    (normalizeHost u).getip = u.getip := by
  unfold normalizeHost; split <;> rfl

theorem normalizeHost_hostedzone (u : update53) :
    (normalizeHost u).hostedzone = u.hostedzone := by
  unfold normalizeHost; split <;> rfl

theorem normalizeHost_daemon (u : update53) :
    (normalizeHost u).daemon = u.daemon := by
  unfold normalizeHost; split <;> rfl

theorem normalizeHost_verbose (u : update53) :
    (normalizeHost u).verbose = u.verbose := by
  unfold normalizeHost; split <;> rfl

theorem normalizeHost_debug (u : update53) :
    (normalizeHost u).debug = u.debug := by
  unfold normalizeHost; split <;> rfl

theorem normalizeHost_hostname_cases (u : update53) :
    (hasSuffix u.hostname "." = true ∧ (normalizeHost u).hostname = u.hostname) ∨
    (hasSuffix u.hostname "." = false ∧ (normalizeHost u).hostname = u.hostname ++ ".") := by
  unfold normalizeHost
  by_cases h : hasSuffix u.hostname "." = true
  · left; simp [h]
  · right
    simp only [Bool.not_eq_true] at h
    simp [h]

theorem normalizeHost_hasSuffix (u : update53) :
    hasSuffix (normalizeHost u).hostname "." = true := by
  rcases normalizeHost_hostname_cases u with ⟨h1, h2⟩ | ⟨_, h2⟩
  · rw [h2]; exact h1
  · rw [h2]; exact hasSuffix_append_dot _

theorem normalizeHost_id_of_hasSuffix (u : update53)
    (h : hasSuffix u.hostname "." = true) : normalizeHost u = u := by
  unfold normalizeHost
  simp [h]

theorem normalizeHost_hostname_ne_empty (u : update53) (h : u.hostname ≠ "") :
    (normalizeHost u).hostname ≠ "" := by
  rcases normalizeHost_hostname_cases u with ⟨_, h2⟩ | ⟨_, h2⟩
  · rw [h2]; exact h
  · rw [h2]; exact append_dot_ne_empty _

/-! ### Branch equations for the orchestration cycle -/

theorem updatehostname_empty (env : NetEnv) (u53 : update53)
    (h : u53.hostname = "") :
    updatehostname env u53 =
      { state := u53, sent := some (some "invalid hostname supplied"),
        urlCalled := false, mdCalled := false,
        zoneInvoked := false, listCalled := false, mutation := none } := by
  unfold updatehostname
  rw [if_pos h]

theorem updatehostname_nonempty (env : NetEnv) (u53 : update53)
    (h : u53.hostname ≠ "") :
    updatehostname env u53 = updatehostnameBody env (normalizeHost u53) := by
  unfold updatehostname
  rw [if_neg h]

theorem updatehostnameBody_badforce (env : NetEnv) (u53 : update53)
    (hf : u53.forceip ≠ "") (hp : parseIP u53.forceip = false) :
    updatehostnameBody env u53 =
      { state := u53, sent := some (some ("invalid force ip supplied: " ++ u53.forceip)),
        urlCalled := false, mdCalled := false,
        zoneInvoked := false, listCalled := false, mutation := none } := by
  unfold updatehostnameBody
  rw [if_pos ⟨hf, hp⟩]

theorem updatehostnameBody_addr_err (env : NetEnv) (u53 : update53) (e : String)
    (hok : ¬(u53.forceip ≠ "" ∧ parseIP u53.forceip = false))
    (ha : (GetPublicIP env u53.forceip u53.getip).res.e = some e) :
    updatehostnameBody env u53 =
      { state := u53, sent := some (some e),
        urlCalled := (GetPublicIP env u53.forceip u53.getip).urlCalled,
        mdCalled := (GetPublicIP env u53.forceip u53.getip).mdCalled,
        zoneInvoked := false, listCalled := false, mutation := none } := by
  unfold updatehostnameBody
  rw [if_neg hok, ha]

theorem updatehostnameBody_nochange (env : NetEnv) (u53 : update53)
    (hok : ¬(u53.forceip ≠ "" ∧ parseIP u53.forceip = false))
    (ha : (GetPublicIP env u53.forceip u53.getip).res.e = none)
    (hgate : u53.previousip = (GetPublicIP env u53.forceip u53.getip).res.ip) :
    updatehostnameBody env u53 =
      { state := u53, sent := none,
        urlCalled := (GetPublicIP env u53.forceip u53.getip).urlCalled,
        mdCalled := (GetPublicIP env u53.forceip u53.getip).mdCalled,
        zoneInvoked := false, listCalled := false, mutation := none } := by
  unfold updatehostnameBody
  rw [if_neg hok, ha]
  exact if_pos hgate

theorem updatehostnameBody_zone_err (env : NetEnv) (u53 : update53) (e : String)
    (hok : ¬(u53.forceip ≠ "" ∧ parseIP u53.forceip = false))
    (ha : (GetPublicIP env u53.forceip u53.getip).res.e = none)
    (hgate : u53.previousip ≠ (GetPublicIP env u53.forceip u53.getip).res.ip)
    (hz : (getHostedZoneID env u53.hostname u53.hostedzone).res.e = some e) :
    updatehostnameBody env u53 =
      { state := u53, sent := some (some e),
        urlCalled := (GetPublicIP env u53.forceip u53.getip).urlCalled,
        mdCalled := (GetPublicIP env u53.forceip u53.getip).mdCalled,
        zoneInvoked := true,
        listCalled := (getHostedZoneID env u53.hostname u53.hostedzone).listCalled,
        mutation := none } := by
  unfold updatehostnameBody
  rw [if_neg hok, ha, if_neg hgate, hz]

theorem updatehostnameBody_mutate (env : NetEnv) (u53 : update53)
    (hok : ¬(u53.forceip ≠ "" ∧ parseIP u53.forceip = false))
    (ha : (GetPublicIP env u53.forceip u53.getip).res.e = none)
    (hgate : u53.previousip ≠ (GetPublicIP env u53.forceip u53.getip).res.ip)
    (hz : (getHostedZoneID env u53.hostname u53.hostedzone).res.e = none) :
    updatehostnameBody env u53 =
      { state := { u53 with previousip := (GetPublicIP env u53.forceip u53.getip).res.ip },
        sent := some env.changeErr,
        urlCalled := (GetPublicIP env u53.forceip u53.getip).urlCalled,
        mdCalled := (GetPublicIP env u53.forceip u53.getip).mdCalled,
        zoneInvoked := true,
        listCalled := (getHostedZoneID env u53.hostname u53.hostedzone).listCalled,
        mutation := some
          { action := "UPSERT", name := u53.hostname, rtype := "A",
            value := (GetPublicIP env u53.forceip u53.getip).res.ip,
            ttl := 300, comment := "Update53",
            hostedZoneId := (getHostedZoneID env u53.hostname u53.hostedzone).res.s } } := by
  unfold updatehostnameBody
  rw [if_neg hok, ha, if_neg hgate, hz]

/-- The state left behind by one cycle is the input state, its
normalization, or its normalization with `previousip` overwritten. -/
theorem updatehostname_state_cases (env : NetEnv) (u53 : update53) :
    (updatehostname env u53).state = u53 ∨
    (updatehostname env u53).state = normalizeHost u53 ∨
    ∃ newip, (updatehostname env u53).state =
      { normalizeHost u53 with previousip := newip } := by
  by_cases h1 : u53.hostname = ""
  · left
    rw [updatehostname_empty env u53 h1]
  · rw [updatehostname_nonempty env u53 h1]
    by_cases hok : (normalizeHost u53).forceip ≠ "" ∧ parseIP (normalizeHost u53).forceip = false
    · right; left
      rw [updatehostnameBody_badforce env _ hok.1 hok.2]
    · rcases ha : (GetPublicIP env (normalizeHost u53).forceip (normalizeHost u53).getip).res.e
        with _ | e
      · by_cases hgate : (normalizeHost u53).previousip =
            (GetPublicIP env (normalizeHost u53).forceip (normalizeHost u53).getip).res.ip
        · right; left
          rw [updatehostnameBody_nochange env _ hok ha hgate]
        · rcases hz : (getHostedZoneID env (normalizeHost u53).hostname
              (normalizeHost u53).hostedzone).res.e with _ | e2
          · right; right
            exact ⟨_, by rw [updatehostnameBody_mutate env _ hok ha hgate hz]⟩
          · right; left
            rw [updatehostnameBody_zone_err env _ e2 hok ha hgate hz]
      · right; left
        rw [updatehostnameBody_addr_err env _ e hok ha]

/-! ## Concrete fixtures -/

def envBase : NetEnv :=
  { urlBody := Except.error "connection refused",
    metadata := Except.error "metadata unavailable",
    listZones := Except.ok [{ name := "example.com.", id := "Z123" }],
    changeErr := none }

def envMutFail : NetEnv := { envBase with changeErr := some "provider rejected change" }

def envTwoZones : NetEnv :=
  { envBase with
      listZones := Except.ok [{ name := "example.com.", id := "Z1" },
                              { name := "sub.example.com.", id := "Z2" }] }

def envBothSources : NetEnv :=
  { envBase with urlBody := Except.ok "198.51.100.7", metadata := Except.ok "198.51.100.8" }

def cfgHome : update53 :=
  { previousip := "", forceip := "203.0.113.5", getip := "",
    hostname := "home.example.com", hostedzone := "",
    daemon := false, verbose := false, debug := false }

/-- The zone resolver's result invariant: a failure carries an empty id. -/
theorem getHostedZoneID_inv (env : NetEnv) (hostname hz : String) :
    (getHostedZoneID env hostname hz).res.e = none ∨
    (getHostedZoneID env hostname hz).res.s = "" := by
  unfold getHostedZoneID
  split
  · simp
  · split
    · simp
    · split <;> simp

/-- A cycle started on an already-normalized state whose cached address
equals the freshly resolved address reports nothing and mutates nothing. -/
theorem second_cycle_nochange (env : NetEnv) (v : update53)
    (hhost : v.hostname ≠ "")
    (hsuf : hasSuffix v.hostname "." = true)
    (hok : ¬(v.forceip ≠ "" ∧ parseIP v.forceip = false))
    (ha : (GetPublicIP env v.forceip v.getip).res.e = none)
    (hgate : v.previousip = (GetPublicIP env v.forceip v.getip).res.ip) :
    (updatehostname env v).mutation = none ∧ (updatehostname env v).sent = none := by
  rw [updatehostname_nonempty env v hhost, normalizeHost_id_of_hasSuffix v hsuf,
      updatehostnameBody_nochange env v hok ha hgate]
  exact ⟨rfl, rfl⟩

/-! ## Claims -/

/-- Claim C1, counterexample: with a failing DNS mutation (provider
rejects the change), the cycle reports the error, yet `previousip` does
NOT remain at its pre-cycle value `""`: it becomes the resolved address.
This refutes "the cached previousIP field remains at its pre-cycle value
after the cycle completes" for failed mutation calls. -/
theorem C1_counterexample :
    cfgHome.previousip = "" ∧
    (updatehostname envMutFail cfgHome).sent = some (some "provider rejected change") ∧
    (updatehostname envMutFail cfgHome).state.previousip = "203.0.113.5" := by
  decide

/-- Claim C1, amended: whenever the DNS mutation is submitted, the cycle
reports the provider outcome and commits the resolved address into
`previousip` regardless of that outcome; a failed call therefore leaves
`previousip` equal to the new address, and a later cycle with the same
resolved address takes the no-change short-circuit instead of retrying. -/
theorem C1_amended_committed_unconditionally (env : NetEnv) (u53 : update53) (rq : ChangeRq)
    (hmut : (updatehostname env u53).mutation = some rq) :
    (updatehostname env u53).sent = some env.changeErr ∧
    (updatehostname env u53).state.previousip = rq.value := by
  by_cases h1 : u53.hostname = ""
  · rw [updatehostname_empty env u53 h1] at hmut
    simp at hmut
  · rw [updatehostname_nonempty env u53 h1] at hmut ⊢
    by_cases hok : (normalizeHost u53).forceip ≠ "" ∧ parseIP (normalizeHost u53).forceip = false
    · rw [updatehostnameBody_badforce env _ hok.1 hok.2] at hmut
      simp at hmut
    · rcases ha : (GetPublicIP env (normalizeHost u53).forceip (normalizeHost u53).getip).res.e
        with _ | e
      · by_cases hgate : (normalizeHost u53).previousip =
            (GetPublicIP env (normalizeHost u53).forceip (normalizeHost u53).getip).res.ip
        · rw [updatehostnameBody_nochange env _ hok ha hgate] at hmut
          simp at hmut
        · rcases hz : (getHostedZoneID env (normalizeHost u53).hostname
              (normalizeHost u53).hostedzone).res.e with _ | e2
          · rw [updatehostnameBody_mutate env _ hok ha hgate hz] at hmut ⊢
            simp at hmut ⊢
            rw [← hmut]
          · rw [updatehostnameBody_zone_err env _ e2 hok ha hgate hz] at hmut
            simp at hmut
      · rw [updatehostnameBody_addr_err env _ e hok ha] at hmut
        simp at hmut

/-- Claim C1 amended, witness at a concrete failing mutation. -/
theorem C1_amended_witness :
    (updatehostname envMutFail cfgHome).sent = some (some "provider rejected change") ∧
    (updatehostname envMutFail cfgHome).state.previousip = "203.0.113.5" :=
  C1_amended_committed_unconditionally envMutFail cfgHome
    { action := "UPSERT", name := "home.example.com.", rtype := "A",
      value := "203.0.113.5", ttl := 300, comment := "Update53", hostedZoneId := "Z123" }
    (by decide)

/-- Claim C2, counterexample: the cycle also modifies the `hostname`
field (trailing-dot normalization), so `previousip` is not the only
field a cycle may modify. -/
theorem C2_counterexample :
    (updatehostname envBase cfgHome).state.hostname ≠ cfgHome.hostname ∧
    (updatehostname envBase cfgHome).state.hostname = "home.example.com." := by
  decide

/-- Claim C2, amended: `previousip` and `hostname` are the only fields a
cycle may modify; `hostname` only by appending a trailing dot when it
lacks one, and `forceip`, `getip`, `hostedzone`, `daemon`, `verbose`,
`debug` keep their pre-cycle values. -/
theorem C2_amended_frame (env : NetEnv) (u53 : update53) :
    (updatehostname env u53).state.forceip = u53.forceip ∧
    (updatehostname env u53).state.getip = u53.getip ∧
    (updatehostname env u53).state.hostedzone = u53.hostedzone ∧
    (updatehostname env u53).state.daemon = u53.daemon ∧
    (updatehostname env u53).state.verbose = u53.verbose ∧
    (updatehostname env u53).state.debug = u53.debug ∧
    ((updatehostname env u53).state.hostname = u53.hostname ∨
      (hasSuffix u53.hostname "." = false ∧
        (updatehostname env u53).state.hostname = u53.hostname ++ ".")) := by
  have hh := normalizeHost_hostname_cases u53
  rcases updatehostname_state_cases env u53 with h | h | ⟨ip, h⟩ <;> rw [h]
  · simp
  · rcases hh with ⟨h1, h2⟩ | ⟨h1, h2⟩ <;>
      simp [normalizeHost_forceip, normalizeHost_getip, normalizeHost_hostedzone,
            normalizeHost_daemon, normalizeHost_verbose, normalizeHost_debug, h1, h2]
  · rcases hh with ⟨h1, h2⟩ | ⟨h1, h2⟩ <;>
      simp [normalizeHost_forceip, normalizeHost_getip, normalizeHost_hostedzone,
            normalizeHost_daemon, normalizeHost_verbose, normalizeHost_debug, h1, h2]

/-- Claim C3, counterexample: a cycle whose change-detection gate
short-circuits sends nothing on the error channel, refuting "every cycle
reports exactly one terminal outcome ... a success outcome ... when the
change-detection gate short-circuits". -/
theorem C3_counterexample :
    (updatehostname envBase { cfgHome with previousip := "203.0.113.5" }).sent = none := by
  decide

/-- Claim C3, amended: a cycle reports at most one terminal outcome, and
reports none exactly when the change-detection gate short-circuits (the
hostname is non-empty, the force-ip pre-check passes, address resolution
succeeds, and the resolved address equals the cached `previousip`);
every other path reports exactly one value. -/
theorem C3_amended_outcome (env : NetEnv) (u53 : update53) :
    (updatehostname env u53).sent = none ↔
      (u53.hostname ≠ "" ∧
       ¬((normalizeHost u53).forceip ≠ "" ∧ parseIP (normalizeHost u53).forceip = false) ∧
       (GetPublicIP env (normalizeHost u53).forceip (normalizeHost u53).getip).res.e = none ∧
       (normalizeHost u53).previousip =
         (GetPublicIP env (normalizeHost u53).forceip (normalizeHost u53).getip).res.ip) := by
  constructor
  · intro hs
    by_cases h1 : u53.hostname = ""
    · rw [updatehostname_empty env u53 h1] at hs
      simp at hs
    · rw [updatehostname_nonempty env u53 h1] at hs
      by_cases hok : (normalizeHost u53).forceip ≠ "" ∧ parseIP (normalizeHost u53).forceip = false
      · rw [updatehostnameBody_badforce env _ hok.1 hok.2] at hs
        simp at hs
      · rcases ha : (GetPublicIP env (normalizeHost u53).forceip (normalizeHost u53).getip).res.e
          with _ | e
        · by_cases hgate : (normalizeHost u53).previousip =
              (GetPublicIP env (normalizeHost u53).forceip (normalizeHost u53).getip).res.ip
          · exact ⟨h1, hok, rfl, hgate⟩
          · rcases hz : (getHostedZoneID env (normalizeHost u53).hostname
                (normalizeHost u53).hostedzone).res.e with _ | e2
            · rw [updatehostnameBody_mutate env _ hok ha hgate hz] at hs
              simp at hs
            · rw [updatehostnameBody_zone_err env _ e2 hok ha hgate hz] at hs
              simp at hs
        · rw [updatehostnameBody_addr_err env _ e hok ha] at hs
          simp at hs
  · rintro ⟨h1, hok, ha, hgate⟩
    rw [updatehostname_nonempty env u53 h1,
        updatehostnameBody_nochange env _ hok ha hgate]

/-- Claim C4: with no explicit zone id, the zone resolver returns the id
of the first zone in provider-returned order whose name is a suffix of
the hostname, regardless of any later (possibly longer) match. -/
theorem C4_first_match_wins (env : NetEnv) (hostname : String)
    (pre post : List Zone) (z : Zone)
    (henv : env.listZones = Except.ok (pre ++ z :: post))
    (hpre : ∀ z' ∈ pre, hasSuffix hostname z'.name = false)
    (hmatch : hasSuffix hostname z.name = true) :
    (getHostedZoneID env hostname "").res = { e := none, s := z.id } := by
  unfold getHostedZoneID
  rw [if_neg (by simp), henv]
  have hnone : pre.find? (fun z' => hasSuffix hostname z'.name) = none :=
    List.find?_eq_none.mpr (fun x hx => by simp [hpre x hx])
  have hfind : (pre ++ z :: post).find? (fun z' => hasSuffix hostname z'.name) = some z := by
    rw [List.find?_append, hnone, Option.none_or, List.find?_cons_of_pos _ (by simp [hmatch])]
  simp [hfind]

/-- Claim C4, witness: the spec's concrete instance — zones
[example.com. ↦ Z1, sub.example.com. ↦ Z2] in that order and hostname
host.sub.example.com. resolve to Z1, not the more specific Z2. -/
theorem C4_witness :
    (getHostedZoneID envTwoZones "host.sub.example.com." "").res = { e := none, s := "Z1" } :=
  C4_first_match_wins envTwoZones "host.sub.example.com."
    [] [{ name := "sub.example.com.", id := "Z2" }] { name := "example.com.", id := "Z1" }
    rfl (by decide) (by decide)

/-- Claim C5: a non-empty override address is used verbatim; neither the
URL fetch nor the metadata query is consulted, and a syntactically valid
override resolves to itself with no error. -/
theorem C5_override_precedence (env : NetEnv) (ip geturl : String) (hip : ip ≠ "") :
    (GetPublicIP env ip geturl).urlCalled = false ∧
    (GetPublicIP env ip geturl).mdCalled = false ∧
    (parseIP ip = true → (GetPublicIP env ip geturl).res = { ip := ip, e := none }) := by
  unfold GetPublicIP
  rw [if_neg hip]
  by_cases hp : parseIP ip = true <;> simp [hp]

/-- Claim C5, witness: both alternative sources would return different
valid addresses, yet the override wins and no source is consulted. -/
theorem C5_witness :
    (GetPublicIP envBothSources "203.0.113.5" "http://example.invalid/ip").urlCalled = false ∧
    (GetPublicIP envBothSources "203.0.113.5" "http://example.invalid/ip").mdCalled = false ∧
    (GetPublicIP envBothSources "203.0.113.5" "http://example.invalid/ip").res =
      { ip := "203.0.113.5", e := none } := by
  have h := C5_override_precedence envBothSources "203.0.113.5" "http://example.invalid/ip"
    (by decide)
  exact ⟨h.1, h.2.1, h.2.2 (by decide)⟩

/-- Claim C6: any candidate address (override, trimmed URL body, or
metadata text) that `net.ParseIP` rejects yields the error "unable to
parse public ip from: <candidate>" and never a success value. -/
theorem C6_invalid_candidate_error (env : NetEnv) (ip geturl : String) :
    (ip ≠ "" → parseIP ip = false →
      (GetPublicIP env ip geturl).res =
        { ip := "", e := some ("unable to parse public ip from: " ++ ip) }) ∧
    (∀ body, ip = "" → geturl ≠ "" → env.urlBody = Except.ok body →
        parseIP (trimSpace body) = false →
      (GetPublicIP env ip geturl).res =
        { ip := "", e := some ("unable to parse public ip from: " ++ trimSpace body) }) ∧
    (∀ md, ip = "" → geturl = "" → env.metadata = Except.ok md → parseIP md = false →
      (GetPublicIP env ip geturl).res =
        { ip := "", e := some ("unable to parse public ip from: " ++ md) }) := by
  refine ⟨?_, ?_, ?_⟩
  · intro hip hp
    unfold GetPublicIP
    rw [if_neg hip]
    simp [hp]
  · intro body hip hurl hbody hp
    subst hip
    simp [GetPublicIP, getFromURL, hurl, hbody, hp]
  · intro md hip hurl hbody hp
    subst hip hurl
    simp [GetPublicIP, getFromMetadata, hbody, hp]

/-- Claim C6, witness: malformed candidates from each of the three
sources produce the parse error. -/
theorem C6_witness :
    (GetPublicIP envBase "not-an-ip" "").res =
      { ip := "", e := some "unable to parse public ip from: not-an-ip" } ∧
    (GetPublicIP { envBase with urlBody := Except.ok " 999.1.1.1 " } ""
        "http://example.invalid/ip").res =
      { ip := "", e := some "unable to parse public ip from: 999.1.1.1" } ∧
    (GetPublicIP { envBase with metadata := Except.ok "999.1.1.1" } "" "").res =
      { ip := "", e := some "unable to parse public ip from: 999.1.1.1" } := by
  refine ⟨?_, ?_, ?_⟩
  · exact (C6_invalid_candidate_error envBase "not-an-ip" "").1 (by decide) (by decide)
  · exact (C6_invalid_candidate_error { envBase with urlBody := Except.ok " 999.1.1.1 " } ""
      "http://example.invalid/ip").2.1 " 999.1.1.1 " rfl (by decide) rfl (by decide)
  · exact (C6_invalid_candidate_error { envBase with metadata := Except.ok "999.1.1.1" } ""
      "").2.2 "999.1.1.1" rfl rfl rfl (by decide)

/-- Claim C7: starting from the initial empty `previousip`, a first
cycle whose address and zone resolve successfully always passes the
change-detection gate (it is never "no change") and submits exactly one
mutation; a second cycle with the same resolved address submits none and
reports nothing. -/
theorem C7_idempotent (env1 env2 : NetEnv) (u53 : update53) (ipaddr : String)
    (hhost : u53.hostname ≠ "")
    (hprev : u53.previousip = "")
    (hok : ¬((normalizeHost u53).forceip ≠ "" ∧ parseIP (normalizeHost u53).forceip = false))
    (ha1 : (GetPublicIP env1 (normalizeHost u53).forceip (normalizeHost u53).getip).res =
      { ip := ipaddr, e := none })
    (hz1 : (getHostedZoneID env1 (normalizeHost u53).hostname
      (normalizeHost u53).hostedzone).res.e = none)
    (ha2 : (GetPublicIP env2 (normalizeHost u53).forceip (normalizeHost u53).getip).res =
      { ip := ipaddr, e := none }) :
    (updatehostname env1 u53).zoneInvoked = true ∧
    ((updatehostname env1 u53).mutation).isSome = true ∧
    (updatehostname env2 (updatehostname env1 u53).state).mutation = none ∧
    (updatehostname env2 (updatehostname env1 u53).state).sent = none := by
  have ha1e : (GetPublicIP env1 (normalizeHost u53).forceip
      (normalizeHost u53).getip).res.e = none := by rw [ha1]
  have ha1ip : (GetPublicIP env1 (normalizeHost u53).forceip
      (normalizeHost u53).getip).res.ip = ipaddr := by rw [ha1]
  have ha2e : (GetPublicIP env2 (normalizeHost u53).forceip
      (normalizeHost u53).getip).res.e = none := by rw [ha2]
  have ha2ip : (GetPublicIP env2 (normalizeHost u53).forceip
      (normalizeHost u53).getip).res.ip = ipaddr := by rw [ha2]
  have hipne : ipaddr ≠ "" := by
    rw [← ha1ip]
    exact GetPublicIP_ok_ip_ne_empty env1 _ _ ha1e
  have hgate1 : (normalizeHost u53).previousip ≠
      (GetPublicIP env1 (normalizeHost u53).forceip (normalizeHost u53).getip).res.ip := by
    rw [normalizeHost_previousip, hprev, ha1ip]
    exact fun hcontra => hipne hcontra.symm
  have hgate2 : (GetPublicIP env1 (normalizeHost u53).forceip
        (normalizeHost u53).getip).res.ip =
      (GetPublicIP env2 (normalizeHost u53).forceip (normalizeHost u53).getip).res.ip := by
    rw [ha1ip, ha2ip]
  rw [updatehostname_nonempty env1 u53 hhost,
      updatehostnameBody_mutate env1 _ hok ha1e hgate1 hz1]
  refine ⟨rfl, rfl, ?_, ?_⟩
  · exact (second_cycle_nochange env2
      { normalizeHost u53 with previousip :=
          (GetPublicIP env1 (normalizeHost u53).forceip (normalizeHost u53).getip).res.ip }
      (normalizeHost_hostname_ne_empty u53 hhost)
      (normalizeHost_hasSuffix u53) hok ha2e hgate2).1
  · exact (second_cycle_nochange env2
      { normalizeHost u53 with previousip :=
          (GetPublicIP env1 (normalizeHost u53).forceip (normalizeHost u53).getip).res.ip }
      (normalizeHost_hostname_ne_empty u53 hhost)
      (normalizeHost_hasSuffix u53) hok ha2e hgate2).2

/-- Claim C7, witness: two consecutive cycles over the same environment
with override 203.0.113.5 perform one mutation then zero. -/
theorem C7_witness :
    (updatehostname envBase cfgHome).zoneInvoked = true ∧
    ((updatehostname envBase cfgHome).mutation).isSome = true ∧
    (updatehostname envBase (updatehostname envBase cfgHome).state).mutation = none ∧
    (updatehostname envBase (updatehostname envBase cfgHome).state).sent = none :=
  C7_idempotent envBase envBase cfgHome "203.0.113.5"
    (by decide) rfl (by decide) (by decide) (by decide) (by decide)

/-- Claim C8: when address resolution yields an error (the hostname and
force-ip pre-checks having passed, so the resolver actually runs), the
zone resolver is never invoked, the mutation is never submitted, and the
address error is the cycle's reported outcome. -/
theorem C8_addr_error_short_circuit (env : NetEnv) (u53 : update53) (msg : String)
    (hhost : u53.hostname ≠ "")
    (hok : ¬((normalizeHost u53).forceip ≠ "" ∧ parseIP (normalizeHost u53).forceip = false))
    (ha : (GetPublicIP env (normalizeHost u53).forceip
      (normalizeHost u53).getip).res.e = some msg) :
    (updatehostname env u53).zoneInvoked = false ∧
    (updatehostname env u53).listCalled = false ∧
    (updatehostname env u53).mutation = none ∧
    (updatehostname env u53).sent = some (some msg) := by
  rw [updatehostname_nonempty env u53 hhost,
      updatehostnameBody_addr_err env _ msg hok ha]
  exact ⟨rfl, rfl, rfl, rfl⟩

/-- Claim C8, witness: with no override and no source URL, the failing
metadata query aborts the cycle before any zone or mutation activity. -/
theorem C8_witness :
    (updatehostname envBase { cfgHome with forceip := "" }).zoneInvoked = false ∧
    (updatehostname envBase { cfgHome with forceip := "" }).listCalled = false ∧
    (updatehostname envBase { cfgHome with forceip := "" }).mutation = none ∧
    (updatehostname envBase { cfgHome with forceip := "" }).sent =
      some (some "error getting public ip: metadata unavailable") :=
  C8_addr_error_short_circuit envBase { cfgHome with forceip := "" }
    "error getting public ip: metadata unavailable" (by decide) (by decide) (by decide)

/-- Claim C9: the end-to-end scenario — override 203.0.113.5, hostname
home.example.com, zone list [example.com. ↦ Z123], initial empty
`previousip`, succeeding provider — submits exactly one UPSERT of the A
record home.example.com. with value 203.0.113.5 and TTL 300 in zone
Z123, and `previousip` becomes 203.0.113.5. -/
theorem C9_end_to_end :
    updatehostname envBase cfgHome =
      { state := { previousip := "203.0.113.5", forceip := "203.0.113.5", getip := "",
                   hostname := "home.example.com.", hostedzone := "",
                   daemon := false, verbose := false, debug := false },
        sent := some none, urlCalled := false, mdCalled := false,
        zoneInvoked := true, listCalled := true,
        mutation := some { action := "UPSERT", name := "home.example.com.", rtype := "A",
                           value := "203.0.113.5", ttl := 300, comment := "Update53",
                           hostedZoneId := "Z123" } } := by
  decide

/-- Claim C10: in every address-resolver result the error and the value
are mutually exclusive (error implies empty string, success implies a
string `net.ParseIP` accepts), and in every zone-resolver result an
error implies an empty id. -/
theorem C10_result_invariants (env : NetEnv) (ip geturl hostname hz : String) :
    ((GetPublicIP env ip geturl).res.e ≠ none → (GetPublicIP env ip geturl).res.ip = "") ∧
    ((GetPublicIP env ip geturl).res.e = none →
      parseIP (GetPublicIP env ip geturl).res.ip = true) ∧
    ((getHostedZoneID env hostname hz).res.e ≠ none →
      (getHostedZoneID env hostname hz).res.s = "") := by
  refine ⟨?_, ?_, ?_⟩
  · intro h
    rcases GetPublicIP_inv env ip geturl with ⟨he, _⟩ | ⟨_, hip⟩
    · exact absurd he h
    · exact hip
  · intro h
    rcases GetPublicIP_inv env ip geturl with ⟨_, hp⟩ | ⟨hne, _⟩
    · exact hp
    · exact absurd h hne
  · intro h
    rcases getHostedZoneID_inv env hostname hz with he | hs
    · exact absurd he h
    · exact hs

/-- Claim C10, witness: a failing metadata lookup gives an empty address
with an error, a valid override parses, and a failed listing gives an
empty zone id. -/
theorem C10_witness :
    (GetPublicIP envBase "" "").res.ip = "" ∧
    parseIP (GetPublicIP envBase "203.0.113.5" "").res.ip = true ∧
    (getHostedZoneID { envBase with listZones := Except.error "listing failed" }
      "host.example.com." "").res.s = "" := by
  refine ⟨?_, ?_, ?_⟩
  · exact (C10_result_invariants envBase "" "" "h" "z").1 (by decide)
  · exact (C10_result_invariants envBase "203.0.113.5" "" "h" "z").2.1 (by decide)
  · exact (C10_result_invariants { envBase with listZones := Except.error "listing failed" }
      "" "" "host.example.com." "").2.2 (by decide)

end Update53
